import Mathlib

/-!
Verification of the GAI frontend realtime session coordinator.

This file gives a shallow embedding of the client-side coordination layer of
the GAI repository and proves (or refutes) the frozen specification claims
about it.  The embedded code lives in:

* `useWebSocket` (src/frontend/src/hooks/useWebSocket.ts, shipped inside
  usePerformanceOptimization.ts): a reconnecting WebSocket client with a
  pending message queue — modelled by `WSState`, `wsStep` and friends.
* `useSpeechRecognition` (same file): a continuous speech recognition session
  — modelled by `SpeechState`, `onResultEvt`, `onEndEvt`, `stopListening`.
* `VoiceInput` (src/frontend/src/components/VoiceInput.tsx): the recording
  controller — modelled by `RecordingState`, `recordingTick`,
  `handleStopRecording`.
* `Chat` (src/frontend/src/pages/Chat.tsx): the session coordinator —
  modelled by `ChatState`, `receiveChatMessage`, `renderChat`.

Modelling conventions.  The source is single-threaded event-driven React
code.  Each hook is embedded as an explicit state record plus a total step
function over an event alphabet; the browser and the caller are the
environment that chooses the event sequence.  Event handlers read the
current state (the intended semantics of the React code as written; React
closure staleness is modelled only where it is the essence of a claim, namely
the Chat history persistence, via an explicit `renderedMessages` snapshot).
Wall-clock instants are natural numbers; an ISO-8601 timestamp string is
abstracted to the instant it denotes.  JavaScript string truthiness
(`if (finalTranscript)`) is modelled as a nonemptiness test.  Recognition
confidence values (JS numbers used only with `Math.max` and the literal 0)
are modelled as rationals.
-/

/-! ## Channel client: the useWebSocket hook -/

/-- readyState of one underlying browser WebSocket object. -/
inductive SockSt where
  | connecting
  | opened
  | closed
deriving Repr, DecidableEq

/-- One WebSocket object created by `connect()`.  `everOpened` records whether
the handshake ever completed (the browser fires `wasClean = true` close events
only for sockets whose connection was established); `closeRequested` records a
call of `close()` on the handle. -/
structure Sock where
  st : SockSt
  everOpened : Bool
  closeRequested : Bool
deriving Repr, DecidableEq

/-- A message as stamped by `sendMessage`: payload plus the `timestamp` field
written into it (`new Date().toISOString()` at the time of the call). -/
structure Stamped where
  payload : String
  timestamp : Nat
deriving Repr, DecidableEq

/-- One frame actually transmitted on an open socket: the stamped message, the
instant `sentAt` at which `ws.send` ran, and the socket it was sent on. -/
structure WireEntry where
  payload : String
  timestamp : Nat
  sentAt : Nat
  sock : Nat
deriving Repr, DecidableEq

/-- State of the useWebSocket hook: the React state (`isConnected`,
`isConnecting`, `error`), the refs (`wsRef`, `reconnectTimeoutRef` as a
pending-timer flag, `reconnectCountRef`, `messageQueueRef`), the list of all
WebSocket objects ever constructed (index = identity; `wsRef` points into it),
and the observed wire. -/
structure WSState where
  isConnected : Bool
  isConnecting : Bool
  error : Option String
  wsRef : Option Nat
  reconnectTimer : Bool
  reconnectCount : Nat
  messageQueue : List Stamped
  sockets : List Sock
  wire : List WireEntry
deriving Repr, DecidableEq

/-- Hook options; only `reconnectAttempts` (default 5) matters to the claims. -/
structure WSConfig where
  reconnectAttempts : Nat
deriving Repr, DecidableEq

/-- Initial hook state: disconnected, empty queue, no sockets. -/
def ws0 : WSState :=
  { isConnected := false, isConnecting := false, error := none, wsRef := none
    reconnectTimer := false, reconnectCount := 0, messageQueue := []
    sockets := [], wire := [] }

/-- The default configuration (`reconnectAttempts = 5`). -/
def cfg5 : WSConfig := ⟨5⟩

/-- Replace socket `sid` by `f` applied to it (no-op when out of range). -/
def setSock (l : List Sock) (sid : Nat) (f : Sock → Sock) : List Sock :=
  match l[sid]? with
  | some sock => l.set sid (f sock)
  | none => l

/-- `wsRef.current?.readyState === WebSocket.OPEN`: the guard used by both
`connect()` and `sendMessage`. -/
def channelOpen (s : WSState) : Bool :=
  match s.wsRef with
  | some sid =>
    match s.sockets[sid]? with
    | some sock => sock.st == SockSt.opened
    | none => false
  | none => false

/-- `connect()`: returns immediately when the current socket is OPEN;
otherwise sets `isConnecting`, clears the error and constructs a fresh
WebSocket, overwriting `wsRef` (usePerformanceOptimization.ts lines
337-346). -/
def connectStep (s : WSState) : WSState :=
  if channelOpen s then s
  else
    { s with isConnecting := true, error := none
             sockets := s.sockets ++ [⟨SockSt.connecting, false, false⟩]
             wsRef := some s.sockets.length }

/-- `ws.onopen` for socket `sid` at instant `t`: marks connected, clears the
error, resets the reconnect counter to 0, then drains the entire pending
message queue in FIFO order onto the wire of that socket (lines 347-362). -/
def onOpen (s : WSState) (sid t : Nat) : WSState :=
  match s.sockets[sid]? with
  | some sock =>
    if sock.st = SockSt.connecting then
      { s with
          sockets := setSock s.sockets sid
            (fun k => { k with st := SockSt.opened, everOpened := true })
          isConnected := true, isConnecting := false, error := none
          reconnectCount := 0
          wire := s.wire ++ s.messageQueue.map
            (fun q => ⟨q.payload, q.timestamp, t, sid⟩)
          messageQueue := [] }
    else s
  | none => s

/-- `ws.onclose` for socket `sid` (lines 364-387): always clears the
connected/connecting flags; on an unclean close, increments the reconnect
counter and schedules a reconnect timer while the counter is below
`reconnectAttempts`, otherwise records the terminal reconnect-failure error.
Nothing in the handler consults whether `disconnect()` was called. -/
def onClose (cfg : WSConfig) (s : WSState) (sid : Nat) (wasClean : Bool) :
    WSState :=
  match s.sockets[sid]? with
  | some sock =>
    if sock.st = SockSt.closed then s
    else if wasClean then
      { s with
          sockets := setSock s.sockets sid (fun k => { k with st := SockSt.closed })
          isConnected := false, isConnecting := false }
    else if s.reconnectCount < cfg.reconnectAttempts then
      { s with
          sockets := setSock s.sockets sid (fun k => { k with st := SockSt.closed })
          isConnected := false, isConnecting := false
          reconnectCount := s.reconnectCount + 1, reconnectTimer := true }
    else
      { s with
          sockets := setSock s.sockets sid (fun k => { k with st := SockSt.closed })
          isConnected := false, isConnecting := false
          error := some "Failed to reconnect after multiple attempts" }
  | none => s

/-- `ws.onerror` (lines 389-394): records the error and clears
`isConnecting`; triggers no retry by itself. -/
def onSockError (s : WSState) (sid : Nat) : WSState :=
  match s.sockets[sid]? with
  | some sock =>
    if sock.st = SockSt.closed then s
    else { s with error := some "WebSocket connection error", isConnecting := false }
  | none => s

/-- `disconnect()` (lines 413-427): clears any pending reconnect timer,
requests close (code 1000, normal closure) on the current socket, drops the
ref, clears the flags and resets the attempt counter.  The closed socket's
handlers stay attached and its close event still fires later. -/
def disconnectStep (s : WSState) : WSState :=
  let s1 := { s with reconnectTimer := false }
  let s2 :=
    match s1.wsRef with
    | some sid =>
      { s1 with sockets := setSock s1.sockets sid
                  (fun k => { k with closeRequested := true })
                wsRef := none }
    | none => s1
  { s2 with isConnected := false, isConnecting := false, reconnectCount := 0 }

/-- `sendMessage` at instant `t` (lines 435-452): stamps the message with the
current time; transmits immediately when the channel is open, else appends the
already-stamped message to the pending queue and, when neither connecting nor
connected, triggers `connect()`. -/
def sendStep (s : WSState) (p : String) (t : Nat) : WSState :=
  if channelOpen s then
    { s with wire := s.wire ++ [⟨p, t, t, s.wsRef.getD 0⟩] }
  else if !s.isConnecting && !s.isConnected then
    connectStep { s with messageQueue := s.messageQueue ++ [⟨p, t⟩] }
  else
    { s with messageQueue := s.messageQueue ++ [⟨p, t⟩] }

/-- The reconnect timer firing: consumes the pending timer and calls
`connect()` (lines 378-380). -/
def timerFireStep (s : WSState) : WSState :=
  if s.reconnectTimer then connectStep { s with reconnectTimer := false } else s

/-- Events driving the channel client: caller API calls, browser socket
events, and the reconnect timer. -/
inductive WSEvent where
  | connectCall
  | sendCall (p : String) (t : Nat)
  | disconnectCall
  | openEvt (sid t : Nat)
  | closeEvt (sid : Nat) (wasClean : Bool)
  | errorEvt (sid : Nat)
  | timerFire
deriving Repr, DecidableEq

/-- One step of the channel client. -/
def wsStep (cfg : WSConfig) (s : WSState) : WSEvent → WSState
  | WSEvent.connectCall => connectStep s
  | WSEvent.sendCall p t => sendStep s p t
  | WSEvent.disconnectCall => disconnectStep s
  | WSEvent.openEvt sid t => onOpen s sid t
  | WSEvent.closeEvt sid wasClean => onClose cfg s sid wasClean
  | WSEvent.errorEvt sid => onSockError s sid
  | WSEvent.timerFire => timerFireStep s

/-- Environment validity of an event in a state.  A socket can open only
while CONNECTING; a close event fires once per live socket and can be clean
(`wasClean = true`) only if the connection was ever established — in
particular, the close event of a socket torn down during its handshake is
necessarily unclean; the reconnect timer fires only while pending. -/
def validEvent (s : WSState) : WSEvent → Bool
  | WSEvent.openEvt sid _ =>
    match s.sockets[sid]? with
    | some sock => sock.st == SockSt.connecting
    | none => false
  | WSEvent.closeEvt sid wasClean =>
    match s.sockets[sid]? with
    | some sock => sock.st != SockSt.closed && (!wasClean || sock.everOpened)
    | none => false
  | WSEvent.errorEvt sid => (s.sockets[sid]?).isSome
  | WSEvent.timerFire => s.reconnectTimer
  | _ => true

/-- A sequence of `sendMessage` calls, each with its call instant. -/
def sendList (cfg : WSConfig) (s : WSState) (ms : List (String × Nat)) : WSState :=
  ms.foldl (fun st mt => wsStep cfg st (WSEvent.sendCall mt.1 mt.2)) s

/-- The stamped form a `sendMessage` call produces. -/
def stampOf (mt : String × Nat) : Stamped := ⟨mt.1, mt.2⟩

/-! ## Speech capture session: the useSpeechRecognition hook -/

/-- One entry of the event.results list delivered by the recognition engine:
its primary alternative's transcript text and confidence, and the isFinal
flag.  `maxAlternatives` defaults to 1 in the source, so alternative 0 is the
only (hence maximum) alternative score. -/
structure RecoResult where
  isRecFinal : Bool
  text : String
  conf : ℚ
deriving Repr, DecidableEq

/-- Configuration of the hook relevant to the claims. -/
structure SpeechConfig where
  continuous : Bool
deriving Repr, DecidableEq

/-- State of the useSpeechRecognition hook: the React state plus the
auto-restart timer ref, and counters of `start()` / `stop()` requests issued
to the underlying engine (so that restarts are observable). -/
structure SpeechState where
  isListening : Bool
  transcript : String
  interimTranscript : String
  confidence : ℚ
  error : Option String
  restartTimer : Bool
  startCalls : Nat
  stopCalls : Nat
deriving Repr, DecidableEq

/-- A fresh supported session. -/
def speech0 : SpeechState :=
  { isListening := false, transcript := "", interimTranscript := ""
    confidence := 0, error := none, restartTimer := false
    startCalls := 0, stopCalls := 0 }

/-- Concatenated transcript text of the final results of one engine event, in
emission order (the loop of recognition.onresult, lines 618-628). -/
def finalsText (rs : List RecoResult) : String :=
  String.join ((rs.filter (fun r => r.isRecFinal)).map (fun r => r.text))

/-- Concatenated transcript text of the non-final results of one event. -/
def interimText (rs : List RecoResult) : String :=
  String.join ((rs.filter (fun r => !r.isRecFinal)).map (fun r => r.text))

/-- `maxConfidence`: `Math.max` folded from 0 over the final results of the
event (line 624). -/
def maxFinalConf (rs : List RecoResult) : ℚ :=
  ((rs.filter (fun r => r.isRecFinal)).map (fun r => r.conf)).foldl max 0

/-- `recognition.onresult` (lines 613-639).  Returns the new state and the
`(text, confidence, isFinal)` triple passed to the onResult callback.  The
branch is selected by JS truthiness of the accumulated final text: nonempty
final text appends to the transcript, wipes the interim transcript and stores
the max confidence; otherwise the interim transcript is replaced wholesale
and the callback gets confidence 0 and isFinal false. -/
def onResultEvt (s : SpeechState) (rs : List RecoResult) :
    SpeechState × (String × ℚ × Bool) :=
  if finalsText rs ≠ "" then
    ({ s with transcript := s.transcript ++ finalsText rs
              interimTranscript := ""
              confidence := maxFinalConf rs },
     (finalsText rs, maxFinalConf rs, true))
  else
    ({ s with interimTranscript := interimText rs },
     (interimText rs, 0, false))

/-- `recognition.onstart` (lines 607-611). -/
def onStartEvt (s : SpeechState) : SpeechState :=
  { s with isListening := true, error := none }

/-- `recognition.onend` (lines 656-667): clears `isListening` and the interim
transcript, then — reading the pre-event state, since the handler's closure
variables are not changed by its own setState calls — schedules an
auto-restart timer whenever the mode is continuous, no error is recorded and
the session was listening.  No flag distinguishes a user-requested stop. -/
def onEndEvt (cfg : SpeechConfig) (s : SpeechState) : SpeechState :=
  let restart := cfg.continuous && s.error.isNone && s.isListening
  { s with isListening := false, interimTranscript := ""
           restartTimer := if restart then true else s.restartTimer }

/-- `startListening()` in the supported case (lines 681-693): requests
`recognition.start()`. -/
def startListening (s : SpeechState) : SpeechState :=
  { s with startCalls := s.startCalls + 1 }

/-- `stopListening()` (lines 695-702): when listening, requests
`recognition.stop()` and cancels any pending auto-restart timer; otherwise a
no-op.  It sets no state and records no user-stop flag. -/
def stopListening (s : SpeechState) : SpeechState :=
  if s.isListening then
    { s with stopCalls := s.stopCalls + 1, restartTimer := false }
  else s

/-- The auto-restart timer firing: consumes the timer and calls
`startListening()` (lines 663-665). -/
def restartFire (s : SpeechState) : SpeechState :=
  if s.restartTimer then startListening { s with restartTimer := false } else s

/-! ## Voice capture controller: the VoiceInput component -/

/-- State of the VoiceInput component: recording/processing flags, the elapsed
display time, the interval timer, the waveform animation frame, the
microphone stream node, the audio level, a pending processing-reset timer,
and the count of `stopListening()` delegations to the speech session. -/
structure RecordingState where
  isRecording : Bool
  isProcessing : Bool
  recordingTime : Nat
  timerActive : Bool
  animFrameActive : Bool
  micConnected : Bool
  audioLevel : ℚ
  processingResetPending : Bool
  stopListenCalls : Nat
deriving Repr, DecidableEq

/-- `handleStopRecording` (VoiceInput.tsx lines 141-172): leaves recording,
enters processing, stops speech recognition, clears the recording interval,
cancels the waveform animation frame, disconnects the microphone, zeroes the
audio level and schedules the 500ms processing reset. -/
def handleStopRecording (s : RecordingState) : RecordingState :=
  { s with isRecording := false, isProcessing := true
           stopListenCalls := s.stopListenCalls + 1
           timerActive := false, animFrameActive := false
           micConnected := false, audioLevel := 0
           processingResetPending := true }

/-- One firing of the 100ms recording interval started by
`handleStartRecording` (lines 123-132): recomputes the elapsed wall-clock
time (`Date.now() - recordingStartTime`) and, once it has reached
`maxDuration`, forces `handleStopRecording()` — the very function the manual
stop button calls. -/
def recordingTick (maxDuration startAt now : Nat) (s : RecordingState) :
    RecordingState :=
  if maxDuration ≤ now - startAt then
    handleStopRecording { s with recordingTime := now - startAt }
  else
    { s with recordingTime := now - startAt }

/-! ## Session coordinator: the Chat page -/

/-- One chat message record, identity plus content (the remaining fields of
ChatMessage are irrelevant to the transcript/persistence claims). -/
structure ChatRec where
  msgId : String
  body : String
deriving Repr, DecidableEq

/-- State of the Chat page: the `messages` React state (the visible
transcript), the snapshot of `messages` captured by the currently-installed
event-handler closures (the value as of the render that created them), and
the record persisted by `storage.setChatHistory`. -/
structure ChatState where
  messages : List ChatRec
  renderedMessages : List ChatRec
  storedHistory : List ChatRec
deriving Repr, DecidableEq

/-- A fresh Chat session with empty transcript and history. -/
def chat0 : ChatState := ⟨[], [], []⟩

/-- Inbound chat_message handler (Chat.tsx lines 57-66): appends the message
to the visible transcript through the functional updater
`setMessages (prev => [...prev, newMessage])`, but persists
`[...messages, newMessage]` where `messages` is the closure's last-rendered
snapshot.  `handleSendMessage` (lines 110-141) appends and persists the
outbound message with exactly the same pair of statements. -/
def receiveChatMessage (s : ChatState) (m : ChatRec) : ChatState :=
  { s with messages := s.messages ++ [m]
           storedHistory := s.renderedMessages ++ [m] }

/-- A React re-render: the handler closures are recreated and now snapshot
the current `messages` state. -/
def renderChat (s : ChatState) : ChatState :=
  { s with renderedMessages := s.messages }

/-! ## Concrete executions used by counterexamples and witnesses -/

/-- Calling `connect()` on a fresh client. -/
def c7s1 : WSState := wsStep cfg5 ws0 WSEvent.connectCall

/-- Calling `connect()` again while the first handshake is in progress. -/
def c7s2 : WSState := wsStep cfg5 c7s1 WSEvent.connectCall

/-- C4 trace, step 1: `connect()` on a fresh client (socket 0 CONNECTING). -/
def c4s1 : WSState := wsStep cfg5 ws0 WSEvent.connectCall

/-- C4 trace, step 2: `disconnect()` before the handshake completes. -/
def c4s2 : WSState := wsStep cfg5 c4s1 WSEvent.disconnectCall

/-- C4 trace, step 3: the torn-down socket's close event; the handshake never
completed, so the browser necessarily reports `wasClean = false`. -/
def c4s3 : WSState := wsStep cfg5 c4s2 (WSEvent.closeEvt 0 false)

/-- C4 trace, step 4: the reconnect timer scheduled in step 3 fires. -/
def c4s4 : WSState := wsStep cfg5 c4s3 WSEvent.timerFire

/-- C3 trace, step 1: `sendMessage "hello"` at instant 5 while disconnected. -/
def c3s1 : WSState := wsStep cfg5 ws0 (WSEvent.sendCall "hello" 5)

/-- C3 trace, step 2: the socket opens at the later instant 9 and the queue
is flushed. -/
def c3s2 : WSState := wsStep cfg5 c3s1 (WSEvent.openEvt 0 9)

/-- A client whose socket 0 is mid-handshake, used to instantiate theorems. -/
def c2wsA : WSState :=
  { ws0 with wsRef := some 0, isConnecting := true
             sockets := [⟨SockSt.connecting, false, false⟩] }

/-- The same client after `reconnectAttempts` failed retries. -/
def c2wsB : WSState := { c2wsA with reconnectCount := 5 }

/-- Two queued sends from a fresh client, used to instantiate theorems. -/
def c1sent : WSState := sendList cfg5 ws0 [("a", 1), ("b", 2)]

/-- A continuous-mode speech session currently listening, no error. -/
def c5st : SpeechState := { speech0 with isListening := true }

/-- A recognition event whose only result is final with empty transcript text
but a definite confidence score. -/
def c6evt : List RecoResult := [⟨true, "", 1⟩]

/-- An ordinary final recognition event. -/
def c6wevt : List RecoResult := [⟨true, "yes", 1⟩]

/-- An ordinary interim recognition event. -/
def c10evt : List RecoResult := [⟨false, "hel", 0⟩]

/-- A recording in progress: timer and waveform running, microphone attached,
no recognition activity so far. -/
def c8st : RecordingState :=
  { isRecording := true, isProcessing := false, recordingTime := 29900
    timerActive := true, animFrameActive := true, micConnected := true
    audioLevel := 1, processingResetPending := false, stopListenCalls := 0 }

/-- First inbound chat message. -/
def c9m1 : ChatRec := ⟨"1", "hello"⟩

/-- Second inbound chat message, arriving before React re-renders. -/
def c9m2 : ChatRec := ⟨"2", "world"⟩

/-! ## Helper lemmas -/

theorem setSock_length (l : List Sock) (sid : Nat) (f : Sock → Sock) :
    (setSock l sid f).length = l.length := by
  unfold setSock
  cases h : l[sid]? <;> simp

theorem getElem?_len_append {α : Type} (l : List α) (a : α) :
    (l ++ [a])[l.length]? = some a := by
  induction l with
  | nil => rfl
  | cons x xs ih => simp [ih]

/-- `connect()` from a non-open channel leaves the queue and wire alone,
creates exactly one connecting socket, and leaves the channel non-open. -/
theorem connectStep_notOpen (s : WSState) (h : channelOpen s = false) :
    (connectStep s).messageQueue = s.messageQueue ∧
    (connectStep s).wire = s.wire ∧
    channelOpen (connectStep s) = false := by
  unfold connectStep
  rw [h]
  refine ⟨rfl, rfl, ?_⟩
  simp [channelOpen, getElem?_len_append]

/-- `sendMessage` on a non-open channel stamps the message with its call
instant, appends it to the pending queue, transmits nothing, and leaves the
channel non-open. -/
theorem sendStep_notOpen (s : WSState) (p : String) (t : Nat)
    (h : channelOpen s = false) :
    (sendStep s p t).messageQueue = s.messageQueue ++ [⟨p, t⟩] ∧
    (sendStep s p t).wire = s.wire ∧
    channelOpen (sendStep s p t) = false := by
  unfold sendStep
  rw [h]
  simp only [Bool.false_eq_true, if_false]
  by_cases hc : (!s.isConnecting && !s.isConnected) = true
  · rw [if_pos hc]
    have h1 : channelOpen { s with messageQueue := s.messageQueue ++ [⟨p, t⟩] } =
        false := h
    have h2 := connectStep_notOpen _ h1
    exact ⟨h2.1, h2.2.1, h2.2.2⟩
  · rw [if_neg hc]
    exact ⟨rfl, rfl, h⟩

/-- All `sendMessage` calls issued while the channel is not open append to the
pending queue in call order, transmit nothing, and never open the channel. -/
theorem sendList_notOpen (cfg : WSConfig) (s : WSState)
    (ms : List (String × Nat)) (h : channelOpen s = false) :
    (sendList cfg s ms).messageQueue = s.messageQueue ++ ms.map stampOf ∧
    (sendList cfg s ms).wire = s.wire ∧
    channelOpen (sendList cfg s ms) = false := by
  induction ms generalizing s with
  | nil => exact ⟨by simp [sendList], rfl, h⟩
  | cons m rest ih =>
    have hstep := sendStep_notOpen s m.1 m.2 h
    have hrest := ih (sendStep s m.1 m.2) hstep.2.2
    have he : sendList cfg s (m :: rest) =
        sendList cfg (sendStep s m.1 m.2) rest := rfl
    rw [he]
    refine ⟨?_, ?_, hrest.2.2⟩
    · rw [hrest.1, hstep.1]
      simp [stampOf]
    · rw [hrest.2.1, hstep.2.1]

/-- The open event of a connecting socket flushes the whole pending queue in
FIFO order onto the wire of that socket, empties the queue, resets the
reconnect counter and marks the channel connected. -/
theorem onOpen_flush (s : WSState) (sid t : Nat) (sock : Sock)
    (hs : s.sockets[sid]? = some sock) (hc : sock.st = SockSt.connecting) :
    (onOpen s sid t).wire =
      s.wire ++ s.messageQueue.map (fun q => ⟨q.payload, q.timestamp, t, sid⟩) ∧
    (onOpen s sid t).messageQueue = [] ∧
    (onOpen s sid t).reconnectCount = 0 ∧
    (onOpen s sid t).isConnected = true ∧
    (onOpen s sid t).error = none := by
  unfold onOpen
  rw [hs]
  simp [hc]

/-- Every handler only ever appends to the wire: nothing is transmitted out
of order with respect to frames already sent. -/
theorem wire_mono (cfg : WSConfig) (s : WSState) (e : WSEvent) :
    ∃ tl, (wsStep cfg s e).wire = s.wire ++ tl := by
  cases e with
  | connectCall =>
    refine ⟨[], ?_⟩
    show (connectStep s).wire = s.wire ++ []
    unfold connectStep
    split <;> simp
  | sendCall p t =>
    show ∃ tl, (sendStep s p t).wire = s.wire ++ tl
    unfold sendStep
    by_cases h : channelOpen s = true
    · rw [if_pos h]
      exact ⟨[⟨p, t, t, s.wsRef.getD 0⟩], rfl⟩
    · rw [if_neg h]
      refine ⟨[], ?_⟩
      split
      · show (connectStep _).wire = s.wire ++ []
        unfold connectStep
        split <;> simp
      · simp
  | disconnectCall =>
    refine ⟨[], ?_⟩
    show (disconnectStep s).wire = s.wire ++ []
    unfold disconnectStep
    cases h : s.wsRef <;> simp [h]
  | openEvt sid t =>
    show ∃ tl, (onOpen s sid t).wire = s.wire ++ tl
    unfold onOpen
    cases h : s.sockets[sid]? with
    | none => exact ⟨[], by simp⟩
    | some sock =>
      by_cases hc : sock.st = SockSt.connecting
      · exact ⟨s.messageQueue.map (fun q => ⟨q.payload, q.timestamp, t, sid⟩),
          by simp [hc]⟩
      · exact ⟨[], by simp [hc]⟩
  | closeEvt sid wasClean =>
    refine ⟨[], ?_⟩
    show (onClose cfg s sid wasClean).wire = s.wire ++ []
    unfold onClose
    cases h : s.sockets[sid]? with
    | none => simp
    | some sock =>
      simp only [h]
      split
      · simp
      · split
        · simp
        · split <;> simp
  | errorEvt sid =>
    refine ⟨[], ?_⟩
    show (onSockError s sid).wire = s.wire ++ []
    unfold onSockError
    cases h : s.sockets[sid]? with
    | none => simp
    | some sock =>
      simp only [h]
      split <;> simp
  | timerFire =>
    refine ⟨[], ?_⟩
    show (timerFireStep s).wire = s.wire ++ []
    unfold timerFireStep
    split
    · unfold connectStep
      split <;> simp
    · simp

/-! ## Claim theorems: channel client -/

/-- C1: for every sequence of send() calls issued while the channel is not
open, each message is appended to the pending message queue in call order and
nothing is transmitted; on the socket open event the entire queue is
transmitted to the wire in FIFO enqueue order, leaving the queue empty; and
every later event (in particular any new caller-initiated send) only appends
to the wire after the flushed frames. -/
theorem c1_queue_flushed_on_open (cfg : WSConfig) (s : WSState)
    (ms : List (String × Nat)) (sid t : Nat) (sock : Sock)
    (h : channelOpen s = false)
    (hs : (sendList cfg s ms).sockets[sid]? = some sock)
    (hc : sock.st = SockSt.connecting) :
    (sendList cfg s ms).messageQueue = s.messageQueue ++ ms.map stampOf ∧
    (sendList cfg s ms).wire = s.wire ∧
    (wsStep cfg (sendList cfg s ms) (WSEvent.openEvt sid t)).wire =
      s.wire ++ (s.messageQueue ++ ms.map stampOf).map
        (fun q => ⟨q.payload, q.timestamp, t, sid⟩) ∧
    (wsStep cfg (sendList cfg s ms) (WSEvent.openEvt sid t)).messageQueue = [] ∧
    ∀ e : WSEvent, ∃ tl,
      (wsStep cfg (wsStep cfg (sendList cfg s ms) (WSEvent.openEvt sid t)) e).wire =
        (wsStep cfg (sendList cfg s ms) (WSEvent.openEvt sid t)).wire ++ tl := by
  have hq := sendList_notOpen cfg s ms h
  have hf := onOpen_flush (sendList cfg s ms) sid t sock hs hc
  refine ⟨hq.1, hq.2.1, ?_, hf.2.1, fun e => wire_mono cfg _ e⟩
  show (onOpen (sendList cfg s ms) sid t).wire = _
  rw [hf.1, hq.2.1, hq.1]

/-- Witness for C1: two messages sent from a fresh disconnected client are
queued in order; the open event at instant 9 flushes both in FIFO order and
empties the queue. -/
theorem c1_queue_flushed_on_open_witness :
    (sendList cfg5 ws0 [("a", 1), ("b", 2)]).messageQueue =
      ws0.messageQueue ++ [("a", 1), ("b", 2)].map stampOf ∧
    (wsStep cfg5 (sendList cfg5 ws0 [("a", 1), ("b", 2)])
        (WSEvent.openEvt 0 9)).wire =
      ws0.wire ++ (ws0.messageQueue ++ [("a", 1), ("b", 2)].map stampOf).map
        (fun q => ⟨q.payload, q.timestamp, 9, 0⟩) ∧
    (wsStep cfg5 (sendList cfg5 ws0 [("a", 1), ("b", 2)])
        (WSEvent.openEvt 0 9)).messageQueue = [] := by
  have h := c1_queue_flushed_on_open cfg5 ws0 [("a", 1), ("b", 2)] 0 9
    ⟨SockSt.connecting, false, false⟩ (by decide) (by decide) rfl
  exact ⟨h.1, h.2.2.1, h.2.2.2.1⟩

/-- C2: the reconnect-attempt counter is reset to 0 on every successful open
and incremented by exactly 1 per unclean-close-triggered retry (which
schedules the reconnect timer); once the counter has reached the maximum
(default 5), a further unclean close records the terminal
"Failed to reconnect after multiple attempts" error, leaves the client
disconnected, schedules no timer; a cleared timer never fires, and no socket
event ever constructs a new socket by itself. -/
theorem c2_reconnect_counter (cfg : WSConfig) (s : WSState) (sid t : Nat)
    (sock : Sock) (hs : s.sockets[sid]? = some sock) :
    (sock.st = SockSt.connecting →
      (wsStep cfg s (WSEvent.openEvt sid t)).reconnectCount = 0) ∧
    (sock.st ≠ SockSt.closed → s.reconnectCount < cfg.reconnectAttempts →
      (wsStep cfg s (WSEvent.closeEvt sid false)).reconnectCount =
        s.reconnectCount + 1 ∧
      (wsStep cfg s (WSEvent.closeEvt sid false)).reconnectTimer = true) ∧
    (sock.st ≠ SockSt.closed → ¬ s.reconnectCount < cfg.reconnectAttempts →
      (wsStep cfg s (WSEvent.closeEvt sid false)).error =
        some "Failed to reconnect after multiple attempts" ∧
      (wsStep cfg s (WSEvent.closeEvt sid false)).isConnected = false ∧
      (wsStep cfg s (WSEvent.closeEvt sid false)).isConnecting = false ∧
      (wsStep cfg s (WSEvent.closeEvt sid false)).reconnectTimer =
        s.reconnectTimer ∧
      (wsStep cfg s (WSEvent.closeEvt sid false)).reconnectCount =
        s.reconnectCount) ∧
    (s.reconnectTimer = false → wsStep cfg s WSEvent.timerFire = s) ∧
    ((wsStep cfg s (WSEvent.openEvt sid t)).sockets.length =
        s.sockets.length ∧
      (∀ wc : Bool, (wsStep cfg s (WSEvent.closeEvt sid wc)).sockets.length =
        s.sockets.length) ∧
      (wsStep cfg s (WSEvent.errorEvt sid)).sockets.length =
        s.sockets.length) := by
  refine ⟨?_, ?_, ?_, ?_, ?_, ?_, ?_⟩
  · intro hc
    exact (onOpen_flush s sid t sock hs hc).2.2.1
  · intro hne hlt
    show (onClose cfg s sid false).reconnectCount = _ ∧
      (onClose cfg s sid false).reconnectTimer = true
    unfold onClose
    simp [hs, hne, hlt]
  · intro hne hge
    simp only [wsStep]
    unfold onClose
    simp [hs, hne, hge]
  · intro ht
    show timerFireStep s = s
    unfold timerFireStep
    simp [ht]
  · show (onOpen s sid t).sockets.length = s.sockets.length
    unfold onOpen
    simp only [hs]
    split <;> simp [setSock_length]
  · intro wc
    show (onClose cfg s sid wc).sockets.length = s.sockets.length
    unfold onClose
    simp only [hs]
    split
    · rfl
    · split
      · simp [setSock_length]
      · split <;> simp [setSock_length]
  · show (onSockError s sid).sockets.length = s.sockets.length
    unfold onSockError
    simp only [hs]
    split <;> rfl

/-- Witness for C2: on a mid-handshake client with counter 0 the open event
resets the counter and the unclean close increments it to 1 with a timer
scheduled; on the same client with counter 5 (the default maximum) the
unclean close records the terminal error and schedules nothing. -/
theorem c2_reconnect_counter_witness :
    (wsStep cfg5 c2wsA (WSEvent.openEvt 0 9)).reconnectCount = 0 ∧
    (wsStep cfg5 c2wsA (WSEvent.closeEvt 0 false)).reconnectCount = 1 ∧
    (wsStep cfg5 c2wsA (WSEvent.closeEvt 0 false)).reconnectTimer = true ∧
    (wsStep cfg5 c2wsB (WSEvent.closeEvt 0 false)).error =
      some "Failed to reconnect after multiple attempts" ∧
    (wsStep cfg5 c2wsB (WSEvent.closeEvt 0 false)).reconnectTimer = false ∧
    wsStep cfg5 c2wsB WSEvent.timerFire = c2wsB := by
  have hA := c2_reconnect_counter cfg5 c2wsA 0 9
    ⟨SockSt.connecting, false, false⟩ rfl
  have hB := c2_reconnect_counter cfg5 c2wsB 0 9
    ⟨SockSt.connecting, false, false⟩ rfl
  refine ⟨hA.1 rfl, (hA.2.1 (by decide) (by decide)).1,
    (hA.2.1 (by decide) (by decide)).2, (hB.2.2.1 (by decide) (by decide)).1,
    ?_, hB.2.2.2.1 rfl⟩
  rw [(hB.2.2.1 (by decide) (by decide)).2.2.2.1]
  rfl

/-- C3 counterexample: a message queued while disconnected at instant 5 and
flushed by the open event at instant 9 reaches the wire carrying timestamp 5
— the enqueue instant — although it was actually transmitted at instant 9,
refuting the claim that the wire timestamp of a queued message is assigned at
the moment of transmission. -/
theorem c3_cex_timestamp_is_enqueue_time :
    c3s2.wire = [⟨"hello", 5, 9, 0⟩] ∧
    ¬ ((⟨"hello", 5, 9, 0⟩ : WireEntry).timestamp =
       (⟨"hello", 5, 9, 0⟩ : WireEntry).sentAt) := by
  constructor
  · rfl
  · decide

/-- C3 (amended): every outbound message carries a timestamp assigned at the
moment `sendMessage` is called.  A message transmitted immediately on the
open channel therefore carries its transmit instant; a message queued while
the channel is not open keeps its enqueue-instant timestamp, and the open
event flushes it to the wire unchanged, with a possibly later transmit
instant. -/
theorem c3_amended_timestamp_at_send_call (cfg : WSConfig) (s : WSState)
    (p : String) (t sid tOpen : Nat) (sock : Sock) :
    (channelOpen s = true →
      (wsStep cfg s (WSEvent.sendCall p t)).wire =
        s.wire ++ [⟨p, t, t, s.wsRef.getD 0⟩]) ∧
    (channelOpen s = false →
      (wsStep cfg s (WSEvent.sendCall p t)).messageQueue =
        s.messageQueue ++ [⟨p, t⟩]) ∧
    (s.sockets[sid]? = some sock → sock.st = SockSt.connecting →
      (wsStep cfg s (WSEvent.openEvt sid tOpen)).wire =
        s.wire ++ s.messageQueue.map
          (fun q => ⟨q.payload, q.timestamp, tOpen, sid⟩)) := by
  refine ⟨?_, ?_, ?_⟩
  · intro h
    show (sendStep s p t).wire = _
    unfold sendStep
    rw [if_pos h]
  · intro h
    exact (sendStep_notOpen s p t h).1
  · intro hs hc
    exact (onOpen_flush s sid tOpen sock hs hc).1

/-- Witness for C3 (amended): on the concrete trace, the send at instant 5 is
queued stamped 5, and the open at instant 9 transmits it stamped 5. -/
theorem c3_amended_timestamp_at_send_call_witness :
    c3s1.messageQueue = ws0.messageQueue ++ [⟨"hello", 5⟩] ∧
    c3s2.wire = c3s1.wire ++ c3s1.messageQueue.map
      (fun q => ⟨q.payload, q.timestamp, 9, 0⟩) := by
  have h1 := (c3_amended_timestamp_at_send_call cfg5 ws0 "hello" 5 0 9
    ⟨SockSt.connecting, false, false⟩).2.1 rfl
  have h2 := (c3_amended_timestamp_at_send_call cfg5 c3s1 "hello" 5 0 9
    ⟨SockSt.connecting, false, false⟩).2.2 rfl rfl
  exact ⟨h1, h2⟩

/-- C4 (code bug): after `connect()` followed by `disconnect()` before the
handshake completed, the torn-down socket's close event — necessarily unclean,
as the environment validity check certifies — schedules a reconnect timer,
and when that timer fires a brand-new socket is opened: an automatic
reconnect after a manual disconnect.  The source's own comment, "Attempt to
reconnect if not manually disconnected", is contradicted by the code, which
checks only `event.wasClean` and the attempt counter. -/
theorem c4_bug_zombie_reconnect_after_disconnect :
    validEvent c4s2 (WSEvent.closeEvt 0 false) = true ∧
    validEvent c4s2 (WSEvent.closeEvt 0 true) = false ∧
    c4s3.reconnectTimer = true ∧
    validEvent c4s3 WSEvent.timerFire = true ∧
    c4s4.sockets.length = 2 ∧
    c4s4.isConnecting = true := by
  decide

/-- C7 counterexample: `connect()` on a fresh client opens socket 0 and marks
the client connecting; a second `connect()` issued while that connection
attempt is still in progress opens a second socket (socket 1) and repoints
`wsRef` at it, refuting the claim that repeating `connect()` during an
in-progress attempt does not open a second socket. -/
theorem c7_cex_double_connect_opens_second_socket :
    c7s1.sockets.length = 1 ∧
    c7s1.isConnecting = true ∧
    channelOpen c7s1 = false ∧
    c7s2.sockets.length = 2 ∧
    c7s2.wsRef = some 1 := by
  decide

/-- C7 (amended): `connect()` is a no-op exactly when the current socket is
already OPEN; in every other case — including while a connection attempt is
already in progress — it transitions the client to connecting, clears the
error, constructs one additional socket and points `wsRef` at it. -/
theorem c7_amended_connect_noop_iff_open (cfg : WSConfig) (s : WSState) :
    (channelOpen s = true → wsStep cfg s WSEvent.connectCall = s) ∧
    (channelOpen s = false →
      (wsStep cfg s WSEvent.connectCall).sockets =
        s.sockets ++ [⟨SockSt.connecting, false, false⟩] ∧
      (wsStep cfg s WSEvent.connectCall).isConnecting = true ∧
      (wsStep cfg s WSEvent.connectCall).error = none ∧
      (wsStep cfg s WSEvent.connectCall).wsRef = some s.sockets.length) := by
  constructor
  · intro h
    show connectStep s = s
    unfold connectStep
    rw [if_pos h]
  · intro h
    simp only [wsStep]
    unfold connectStep
    rw [h]
    exact ⟨rfl, rfl, rfl, rfl⟩

/-- Witness for C7 (amended): instantiated on the fresh client (not open) and
on a connected client (open). -/
theorem c7_amended_connect_noop_iff_open_witness :
    (wsStep cfg5 ws0 WSEvent.connectCall).sockets =
      ws0.sockets ++ [⟨SockSt.connecting, false, false⟩] ∧
    (wsStep cfg5 ws0 WSEvent.connectCall).isConnecting = true ∧
    wsStep cfg5
      { ws0 with wsRef := some 0, isConnected := true
                 sockets := [⟨SockSt.opened, true, false⟩] }
      WSEvent.connectCall =
      { ws0 with wsRef := some 0, isConnected := true
                 sockets := [⟨SockSt.opened, true, false⟩] } := by
  have h1 := (c7_amended_connect_noop_iff_open cfg5 ws0).2 rfl
  have h2 := (c7_amended_connect_noop_iff_open cfg5
    { ws0 with wsRef := some 0, isConnected := true
               sockets := [⟨SockSt.opened, true, false⟩] }).1 rfl
  exact ⟨h1.1, h1.2.1, h2⟩

/-! ## Claim theorems: speech session, recording controller, coordinator -/

/-- C5 counterexample: in a continuous-mode session that is listening with no
error, `stopListening()` followed by the engine's natural end event does NOT
leave the session idle with no auto-restart: the end handler, which checks
only `continuous && !error && isListening` and has no record of the user's
stop request, schedules the auto-restart timer, and when it fires the engine
is started again. -/
theorem c5_cex_restart_after_stop :
    c5st.isListening = true ∧
    c5st.error = none ∧
    (stopListening c5st).stopCalls = 1 ∧
    (stopListening c5st).restartTimer = false ∧
    (onEndEvt ⟨true⟩ (stopListening c5st)).isListening = false ∧
    (onEndEvt ⟨true⟩ (stopListening c5st)).restartTimer = true ∧
    (restartFire (onEndEvt ⟨true⟩ (stopListening c5st))).startCalls = 1 := by
  decide

/-- C5 (amended): in continuous mode with no error set, any natural end event
arriving while the session was listening schedules the auto-restart timer,
whether or not `stopListening()` preceded it — `stopListening()` cancels only
a restart timer that is already pending, and cannot cancel the one the
subsequent end event schedules.  An end event without a preceding
`stopListening()` likewise auto-restarts. -/
theorem c5_amended_end_always_restarts (cfg : SpeechConfig) (s : SpeechState)
    (hc : cfg.continuous = true) (he : s.error = none)
    (hl : s.isListening = true) :
    (onEndEvt cfg (stopListening s)).restartTimer = true ∧
    (onEndEvt cfg (stopListening s)).isListening = false ∧
    (onEndEvt cfg s).restartTimer = true ∧
    (stopListening { s with restartTimer := true }).restartTimer = false := by
  unfold onEndEvt stopListening
  simp [hc, he, hl]

/-- Witness for C5 (amended): instantiated on the concrete listening
session. -/
theorem c5_amended_end_always_restarts_witness :
    (onEndEvt ⟨true⟩ (stopListening c5st)).restartTimer = true ∧
    (onEndEvt ⟨true⟩ (stopListening c5st)).isListening = false ∧
    (onEndEvt ⟨true⟩ c5st).restartTimer = true ∧
    (stopListening { c5st with restartTimer := true }).restartTimer = false :=
  c5_amended_end_always_restarts ⟨true⟩ c5st rfl rfl rfl

/-- C6 counterexample: a recognition event whose only result is final but has
empty transcript text (`c6evt`, confidence 1) is routed to the interim branch
by the JS truthiness test `if (finalTranscript)`: the stored confidence stays
0 instead of being set to the final result's maximum alternative score 1, and
the callback is invoked with `isFinal = false` — refuting the claim for this
final recognition result. -/
theorem c6_cex_empty_final_treated_as_interim :
    c6evt.any (fun r => r.isRecFinal) = true ∧
    maxFinalConf c6evt = 1 ∧
    (onResultEvt speech0 c6evt).1.confidence = 0 ∧
    ¬ (onResultEvt speech0 c6evt).1.confidence = maxFinalConf c6evt ∧
    (onResultEvt speech0 c6evt).2 = ("", 0, false) := by
  constructor
  · decide
  · constructor
    · decide
    · refine ⟨rfl, by decide, rfl⟩

/-- C6 (amended): a recognition event is classified as final exactly when the
concatenation of its final results' texts is nonempty.  For such events the
final text is appended to the accumulated transcript, the interim transcript
is wiped, and the stored confidence is set to the maximum alternative score
folded over the event's final results; for events with empty concatenated
final text the interim transcript is replaced wholesale by the concatenated
non-final text and the accumulated transcript and stored confidence are left
unchanged. -/
theorem c6_amended_final_appends_interim_replaces (s : SpeechState)
    (rs : List RecoResult) :
    (finalsText rs ≠ "" →
      (onResultEvt s rs).1.transcript = s.transcript ++ finalsText rs ∧
      (onResultEvt s rs).1.interimTranscript = "" ∧
      (onResultEvt s rs).1.confidence = maxFinalConf rs ∧
      (onResultEvt s rs).2 = (finalsText rs, maxFinalConf rs, true)) ∧
    (finalsText rs = "" →
      (onResultEvt s rs).1.transcript = s.transcript ∧
      (onResultEvt s rs).1.confidence = s.confidence ∧
      (onResultEvt s rs).1.interimTranscript = interimText rs ∧
      (onResultEvt s rs).2 = (interimText rs, 0, false)) := by
  constructor
  · intro h
    unfold onResultEvt
    rw [if_pos h]
    exact ⟨rfl, rfl, rfl, rfl⟩
  · intro h
    unfold onResultEvt
    rw [if_neg (not_not_intro h)]
    exact ⟨rfl, rfl, rfl, rfl⟩

/-- Witness for C6 (amended): an ordinary final event appends its text,
wipes the interim transcript and stores its confidence. -/
theorem c6_amended_final_appends_interim_replaces_witness :
    (onResultEvt { speech0 with transcript := "a" } c6wevt).1.transcript =
      ({ speech0 with transcript := "a" } : SpeechState).transcript ++
        finalsText c6wevt ∧
    (onResultEvt { speech0 with transcript := "a" } c6wevt).1.interimTranscript
      = "" ∧
    (onResultEvt { speech0 with transcript := "a" } c6wevt).1.confidence =
      maxFinalConf c6wevt ∧
    (onResultEvt { speech0 with transcript := "a" } c6wevt).2 =
      (finalsText c6wevt, maxFinalConf c6wevt, true) :=
  (c6_amended_final_appends_interim_replaces
    { speech0 with transcript := "a" } c6wevt).1 (by decide)

/-- C10: whenever the onResult callback is invoked with `isFinal = false` —
i.e. for every delivered interim recognition result — the confidence argument
is exactly 0, and the event leaves the session's stored confidence and
accumulated transcript unchanged: the stored confidence can change only when
an event classified as final arrives. -/
theorem c10_interim_delivered_with_zero_confidence (s : SpeechState)
    (rs : List RecoResult) (h : (onResultEvt s rs).2.2.2 = false) :
    (onResultEvt s rs).2.2.1 = 0 ∧
    (onResultEvt s rs).1.confidence = s.confidence ∧
    (onResultEvt s rs).1.transcript = s.transcript := by
  by_cases hf : finalsText rs ≠ ""
  · exfalso
    unfold onResultEvt at h
    rw [if_pos hf] at h
    simp at h
  · unfold onResultEvt
    rw [if_neg hf]
    exact ⟨rfl, rfl, rfl⟩

/-- Witness for C10: an ordinary interim event is delivered with confidence
0 and leaves the stored confidence and transcript unchanged. -/
theorem c10_interim_delivered_with_zero_confidence_witness :
    (onResultEvt speech0 c10evt).2.2.1 = 0 ∧
    (onResultEvt speech0 c10evt).1.confidence = speech0.confidence ∧
    (onResultEvt speech0 c10evt).1.transcript = speech0.transcript :=
  c10_interim_delivered_with_zero_confidence speech0 c10evt (by decide)

/-- C8: while a recording's interval timer is running, a tick at which the
elapsed wall-clock time has reached `maxDuration` (default 30000 ms) yields
exactly the state `handleStopRecording` — the manual stop — produces:
recording off, processing on, interval timer cleared, audio-level sampling
(animation frame and microphone) stopped with the level zeroed, speech
recognition stopped, and the 500 ms processing reset pending.  No recognition
activity is assumed: the bound holds for every recording state, including one
whose speech session never produced a result. -/
theorem c8_max_duration_forces_stop (maxDuration startAt now : Nat)
    (s : RecordingState) (hrec : s.isRecording = true)
    (ht : s.timerActive = true) (h : maxDuration ≤ now - startAt) :
    recordingTick maxDuration startAt now s =
      handleStopRecording { s with recordingTime := now - startAt } ∧
    (recordingTick maxDuration startAt now s).isRecording = false ∧
    (recordingTick maxDuration startAt now s).isProcessing = true ∧
    (recordingTick maxDuration startAt now s).timerActive = false ∧
    (recordingTick maxDuration startAt now s).animFrameActive = false ∧
    (recordingTick maxDuration startAt now s).micConnected = false ∧
    (recordingTick maxDuration startAt now s).audioLevel = 0 ∧
    (recordingTick maxDuration startAt now s).stopListenCalls =
      s.stopListenCalls + 1 ∧
    (recordingTick maxDuration startAt now s).processingResetPending = true := by
  unfold recordingTick
  rw [if_pos h]
  exact ⟨rfl, rfl, rfl, rfl, rfl, rfl, rfl, rfl, rfl⟩

/-- Witness for C8: a recording started at instant 100 with the default
30000 ms cap is forced to stop by the tick at instant 30100. -/
theorem c8_max_duration_forces_stop_witness :
    recordingTick 30000 100 30100 c8st =
      handleStopRecording { c8st with recordingTime := 30100 - 100 } ∧
    (recordingTick 30000 100 30100 c8st).isRecording = false ∧
    (recordingTick 30000 100 30100 c8st).isProcessing = true ∧
    (recordingTick 30000 100 30100 c8st).timerActive = false ∧
    (recordingTick 30000 100 30100 c8st).stopListenCalls =
      c8st.stopListenCalls + 1 := by
  have h := c8_max_duration_forces_stop 30000 100 30100 c8st rfl rfl
    (by decide)
  exact ⟨h.1, h.2.1, h.2.2.1, h.2.2.2.1, h.2.2.2.2.2.2.2.1⟩

/-- C9 (code bug): each mutation appends the message to the visible
transcript exactly once in arrival order, but the handler persists
`[...messages, newMessage]` built from the closure's last-rendered snapshot
of `messages` rather than the updated list; when two inbound chat_message
events arrive within one render cycle, the persisted chat history ends up as
`[m2]` while the visible transcript is `[m1, m2]`, so the history does not
equal the transcript after the mutation. -/
theorem c9_bug_stale_history_persisted :
    (receiveChatMessage chat0 c9m1).messages = [c9m1] ∧
    (receiveChatMessage chat0 c9m1).storedHistory = [c9m1] ∧
    (receiveChatMessage (receiveChatMessage chat0 c9m1) c9m2).messages =
      [c9m1, c9m2] ∧
    (receiveChatMessage (receiveChatMessage chat0 c9m1) c9m2).storedHistory =
      [c9m2] ∧
    ¬ ((receiveChatMessage (receiveChatMessage chat0 c9m1) c9m2).storedHistory
       = (receiveChatMessage (receiveChatMessage chat0 c9m1) c9m2).messages) ∧
    (receiveChatMessage (renderChat (receiveChatMessage chat0 c9m1))
        c9m2).storedHistory = [c9m1, c9m2] := by
  decide
